import Mathlib

/-!
# service-python-poetry-fastapi: lifecycle operations of the builder agent

A shallow embedding of `main.go` (`Service.LoadEndpoints`) and `builder.go`
(`Builder.Build`, `Builder.Deploy`, `Builder.Create`, `Builder.CreateEndpoints`,
`Service.GenerateOpenAPI`).

The Go methods mutate the receiver and call into the `codefly-dev/core` library
(template engine, process runners, docker helper, OpenAPI reader).  Here

* the receiver is an explicit `Service` value that is passed in and returned;
* the filesystem and the sequence of calls made to collaborators are an explicit
  `World` (files plus a call trace);
* what the library calls answer is a parameter, `Collaborators`: every theorem
  quantifies over it.
-/

namespace PoetryFastapi

/-! ## Data model -/

abbrev Path := String

abbrev Doc := String

/-- The files under the service location: path and content. -/
abbrev FS := List (Path × Doc)

/-- Error values.  `raised` is an error returned by a library call, `session` is the
error of the confirmation protocol, `wrapf` is `s.Wool.Wrapf(err, msg)`. -/
inductive Err where
  | raised (msg : String)
  | session (msg : String)
  | wrapf (inner : Err) (msg : String)
deriving DecidableEq, Repr

namespace standards

/-- The API kind `standards.REST` of the core library. -/
def REST : String := "rest"

/-- The API kind `standards.GRPC` of the core library. -/
def GRPC : String := "grpc"

end standards

/-- The visibility `configurations.VisibilityPublic` of the core library. -/
def VisibilityPublic : String := "public"

/-- A declared endpoint, `configurations.Endpoint`, as far as this repository reads and
writes it. -/
structure Endpoint where
  name : String
  application : String
  service : String
  api : String
  visibility : String
deriving DecidableEq, Repr

/-- A resolved endpoint, `v0.Endpoint`: the declaration together with the API read from
the interface-description document. -/
structure V0Endpoint where
  name : String
  application : String
  service : String
  api : String
  visibility : String
  rest : Doc
deriving DecidableEq, Repr

/-- The service configuration, `s.Configuration`. -/
structure Configuration where
  application : String
  name : String
  endpoints : List Endpoint
deriving DecidableEq, Repr

/-- The settings record.  `main.go` declares `Debug` and `Watch`; `Build` also reads
`s.Settings.RuntimePackages`. -/
structure Settings where
  debug : Bool
  watch : Bool
  runtimePackages : List String
deriving DecidableEq, Repr

/-- The service identity handed to templates, `s.Information`. -/
structure Information where
  application : String
  service : String
  agent : String
deriving DecidableEq, Repr

/-- The `BuildContext` message of a build or deployment request. -/
structure BuildContext where
  target : String
deriving DecidableEq, Repr

/-- An image reference, `configurations.DockerImage`. -/
structure DockerImage where
  name : String
  tag : String
deriving DecidableEq, Repr

/-- The name of the watch-mode confirmation, `const Watch`. -/
def Watch : String := "with-hot-reload"

/-- One yes/no question of a confirmation sequence, `communicate.NewConfirm(msg, default)`. -/
structure Confirm where
  name : String
  message : String
  description : String
  default : Bool
deriving DecidableEq, Repr

/-- The sequence registered by `Load` for the create channel. -/
def createCommunicate : List Confirm :=
  [{ name := Watch,
     message := "Code hot-reload (Recommended)?",
     description := "codefly can restart your service when code changes are detected 🔎",
     default := true }]

/-- Modelled from the spec: the session of the interactive confirmation protocol (the
`communicate` package of the core library).  A session holds the recorded answers. -/
structure Session where
  answers : List (String × Bool)
deriving DecidableEq, Repr

/-- Modelled from the spec: the communication state of one service instance (the
`communicate` package of the core library): the questions registered for the create
channel and, once the exchange took place, its session. -/
structure Communication where
  registered : List Confirm
  done : Option Session
deriving DecidableEq, Repr

/-- Modelled from the spec: `s.Communication.Done(ctx, channel)` of the core library
returns the session of the channel, and a session error when there is none. -/
def Communication.Done (c : Communication) : Except Err Session :=
  match c.done with
  | some session => .ok session
  | none => .error (.session "channel is not done")

/-- Modelled from the spec: `session.Confirm(name)` of the core library returns the
recorded answer; when no answer was recorded it returns the zero value and a session
error. -/
def Session.Confirm (session : Session) (name : String) : Bool × Option Err :=
  match session.answers.lookup name with
  | some b => (b, none)
  | none => (false, some (.session name))

/-- The state of one service instance: the fields of `Service`/`services.Base` that the
lifecycle operations read or write. -/
structure Service where
  information : Information
  configuration : Configuration
  location : Path
  sourceLocation : Path
  settings : Settings
  endpoints : List V0Endpoint
  restEndpoint : Option V0Endpoint
  environmentVariables : List String
  communication : Communication
deriving DecidableEq, Repr

/-- The path of a file of the service, `s.Local(rel)`. -/
def Service.Local (s : Service) (rel : Path) : Path :=
  s.location ++ "/" ++ rel

/-- A key/value pair of a build descriptor, `Env`. -/
structure Env where
  key : String
  value : String
deriving DecidableEq, Repr

/-- The template input of `Build`, `DockerTemplating`. -/
structure DockerTemplating where
  components : List String
  runtimePackages : List String
  envs : List Env
deriving DecidableEq, Repr

/-- The template input of `Create`, `CreateConfiguration`. -/
structure CreateConfiguration where
  information : Information
  image : Option DockerImage
  envs : List String
deriving DecidableEq, Repr

/-- Which embedded template set is applied: `services.WithFactory(factoryFS)` or
`services.WithBuilder(builderFS)`. -/
inductive TemplateSet where
  | factory
  | builder
deriving DecidableEq, Repr

/-- What is handed to `s.Templates` as template input. -/
inductive TemplateInput where
  | docker (d : DockerTemplating)
  | create (c : CreateConfiguration)
deriving DecidableEq, Repr

/-- The argument of `dockerhelpers.NewBuilder`, without the log sink. -/
structure BuilderConfiguration where
  root : Path
  dockerfile : Path
  destination : DockerImage
deriving DecidableEq, Repr

/-- The `DeploymentConfiguration` of the core library. -/
structure DeploymentConfiguration where
  replicas : Nat
deriving DecidableEq, Repr

/-- The rendered key/value configuration map. -/
abbrev ConfigMap := List (String × String)

/-- The argument of `s.Builder.Deploy`, `services.DeploymentTemplateInput`. -/
structure DeploymentTemplateInput where
  image : DockerImage
  information : Information
  deploymentConfiguration : DeploymentConfiguration
  configMap : ConfigMap
deriving DecidableEq, Repr

/-- A build request. -/
structure BuildRequest where
  buildContext : BuildContext
deriving DecidableEq, Repr

/-- A deployment request. -/
structure DeploymentRequest where
  buildContext : BuildContext
deriving DecidableEq, Repr

/-- A call made to a collaborator, with its arguments. -/
inductive Event where
  | resolve (endpoint : Endpoint) (doc : Path)
  | templates (set : TemplateSet) (input : TemplateInput)
  | run (cmd : List String) (dir : Path)
  | deleteFile (p : Path)
  | dockerBuild (cfg : BuilderConfiguration)
  | deploy (req : DeploymentRequest) (params : DeploymentTemplateInput)
deriving DecidableEq, Repr

/-- The world outside the service value: the files and the calls made so far. -/
structure World where
  fs : FS
  trace : List Event
deriving DecidableEq, Repr

/-- What the calls into the core library answer.  Each field is the result of one library
function as a function of its arguments and of the files it can read. -/
structure Collaborators where
  /-- The reader `configurations.NewRestAPIFromOpenAPI(ctx, endpoint, path)`. -/
  newRestAPIFromOpenAPI : FS → Endpoint → Path → Except Err V0Endpoint
  /-- The constructor `s.Configuration.BaseEndpoint(api)`. -/
  baseEndpoint : Configuration → String → Endpoint
  /-- Modelled from the spec: `s.DockerImage(buildContext)` of the core library; the image
  reference is derived from the service identity and the build context. -/
  dockerImage : Information → BuildContext → DockerImage
  /-- The component list `requirements.All()`. -/
  requirementsAll : FS → List String
  /-- The error of `shared.DeleteFile(ctx, path)`, if it fails. -/
  deleteFile : FS → Path → Option Err
  /-- The engine `s.Templates(ctx, input, set)`: its error, if any, and the files it leaves. -/
  templates : Service → TemplateSet → TemplateInput → FS → Option Err × FS
  /-- The error of `runners.NewRunner(ctx, cmd...)`, if it fails. -/
  newRunner : List String → Option Err
  /-- The command `runner.Run()` in a working directory: its error, if any, and the files
  it leaves. -/
  run : List String → Path → FS → Option Err × FS
  /-- The error of `dockerhelpers.NewBuilder(cfg)`, if it fails. -/
  newBuilder : BuilderConfiguration → Option Err
  /-- The error of `builder.Build(ctx)`, if it fails. -/
  dockerBuild : BuilderConfiguration → FS → Option Err
  /-- The renderer `services.EnvsAsConfigMapData(envs)`. -/
  envsAsConfigMapData : List String → Except Err ConfigMap
  /-- The applier `s.Builder.Deploy(ctx, req, deploymentFS, params)`: its error, if any, and
  the files it leaves. -/
  builderDeploy : DeploymentRequest → DeploymentTemplateInput → FS → Option Err × FS

/-! ## Calls to collaborators, recorded in the trace -/

/-- The content of a file, if it exists. -/
def FS.read (fs : FS) (p : Path) : Option Doc :=
  fs.lookup p

/-- The check `shared.FileExists(path)`. -/
def FileExists (w : World) (p : Path) : Bool :=
  (FS.read w.fs p).isSome

/-- The files without the one at `p`. -/
def FS.remove (fs : FS) (p : Path) : FS :=
  fs.filter (fun f => f.1 ≠ p)

/-- The call `configurations.NewRestAPIFromOpenAPI(ctx, endpoint, path)`. -/
def resolve (env : Collaborators) (endpoint : Endpoint) (p : Path) (w : World) :
    Except Err V0Endpoint × World :=
  (env.newRestAPIFromOpenAPI w.fs endpoint p,
   { w with trace := w.trace ++ [Event.resolve endpoint p] })

/-- The call `shared.DeleteFile(ctx, path)`: when it succeeds the file is gone. -/
def DeleteFile (env : Collaborators) (p : Path) (w : World) : Option Err × World :=
  match env.deleteFile w.fs p with
  | some err => (some err, { w with trace := w.trace ++ [Event.deleteFile p] })
  | none => (none, { fs := FS.remove w.fs p, trace := w.trace ++ [Event.deleteFile p] })

/-- The call `s.Templates(ctx, input, set)`. -/
def Templates (env : Collaborators) (s : Service) (set : TemplateSet) (input : TemplateInput)
    (w : World) : Option Err × World :=
  ((env.templates s set input w.fs).1,
   { fs := (env.templates s set input w.fs).2,
     trace := w.trace ++ [Event.templates set input] })

/-- The call `runner.Run()` of a runner bound to directory `dir`. -/
def Run (env : Collaborators) (cmd : List String) (dir : Path) (w : World) :
    Option Err × World :=
  ((env.run cmd dir w.fs).1,
   { fs := (env.run cmd dir w.fs).2, trace := w.trace ++ [Event.run cmd dir] })

/-- The call `builder.Build(ctx)` of the docker helper. -/
def DockerBuild (env : Collaborators) (cfg : BuilderConfiguration) (w : World) :
    Option Err × World :=
  (env.dockerBuild cfg w.fs, { w with trace := w.trace ++ [Event.dockerBuild cfg] })

/-- The call `s.Builder.Deploy(ctx, req, deploymentFS, params)`. -/
def BuilderDeploy (env : Collaborators) (req : DeploymentRequest)
    (params : DeploymentTemplateInput) (w : World) : Option Err × World :=
  ((env.builderDeploy req params w.fs).1,
   { fs := (env.builderDeploy req params w.fs).2,
     trace := w.trace ++ [Event.deploy req params] })

/-! ## `Service.LoadEndpoints` (main.go) -/

/-- The assignments at the head of the loop body of `LoadEndpoints`: application and
service are set from the configuration, and the visibility when `makePublic` holds. -/
def prepare (cfg : Configuration) (makePublic : Bool) (endpoint : Endpoint) : Endpoint :=
  let endpoint := { endpoint with application := cfg.application, service := cfg.name }
  if makePublic then { endpoint with visibility := VisibilityPublic } else endpoint

/-- The state of the loop of `LoadEndpoints` when it is left: the error returned, the
declared endpoints as the loop left them (it assigns through the element pointers),
`s.Endpoints`, and the world. -/
structure LoopState where
  err : Option Err
  declared : List Endpoint
  endpoints : List V0Endpoint
  world : World
deriving DecidableEq, Repr

/-- The loop `for _, endpoint := range s.Configuration.Endpoints` of `LoadEndpoints`, from
the declarations still to visit, the value of `s.Endpoints` and the world. -/
def loadLoop (env : Collaborators) (s : Service) (makePublic : Bool) :
    List Endpoint → List V0Endpoint → World → LoopState
  | [], acc, w => { err := none, declared := [], endpoints := acc, world := w }
  | endpoint :: rest, acc, w =>
    let endpoint := prepare s.configuration makePublic endpoint
    if endpoint.api = standards.REST then
      match resolve env endpoint (s.Local "swagger/api.swagger.json") w with
      | (.error err, w1) =>
        { err := some (.wrapf err "cannot create openapi api"),
          declared := endpoint :: rest, endpoints := acc, world := w1 }
      | (.ok r, w1) =>
        let st := loadLoop env s makePublic rest (acc ++ [r]) w1
        { st with declared := endpoint :: st.declared }
    else
      let st := loadLoop env s makePublic rest acc w
      { st with declared := endpoint :: st.declared }

/-- The method `Service.LoadEndpoints(ctx, makePublic)`: the error returned, the service
afterwards and the world afterwards. -/
def LoadEndpoints (env : Collaborators) (s : Service) (makePublic : Bool) (w : World) :
    Option Err × Service × World :=
  let st := loadLoop env s makePublic s.configuration.endpoints [] w
  (st.err,
   { s with configuration := { s.configuration with endpoints := st.declared },
            endpoints := st.endpoints },
   st.world)

/-! ## `Service.GenerateOpenAPI`, `Builder.CreateEndpoints`, `Builder.Create` (builder.go) -/

/-- The method `Service.GenerateOpenAPI(ctx)`: runs `poetry run python openapi.py` in the
source directory. -/
def GenerateOpenAPI (env : Collaborators) (s : Service) (w : World) : Option Err × World :=
  match env.newRunner ["poetry", "run", "python", "openapi.py"] with
  | some err => (some (.wrapf err "cannot create runner"), w)
  | none =>
    match Run env ["poetry", "run", "python", "openapi.py"] s.sourceLocation w with
    | (some err, w1) => (some (.wrapf err "cannot generate swagger"), w1)
    | (none, w1) => (none, w1)

/-- The head of `CreateEndpoints`: `swagger := s.Local("openapi/api.swagger.json")`, and
`s.GenerateOpenAPI(ctx)` is called when `!shared.FileExists(swagger)`. -/
def generateIfMissing (env : Collaborators) (s : Service) (w : World) : Option Err × World :=
  let swagger := s.Local "openapi/api.swagger.json"
  if !FileExists w swagger then GenerateOpenAPI env s w else (none, w)

/-- The method `Builder.CreateEndpoints(ctx)`: the error returned, the service afterwards
and the world afterwards. -/
def CreateEndpoints (env : Collaborators) (s : Service) (w : World) :
    Option Err × Service × World :=
  match generateIfMissing env s w with
  | (some err, w1) => (some (.wrapf err "cannot generate openapi"), s, w1)
  | (none, w1) =>
    let endpoint := env.baseEndpoint s.configuration standards.REST
    match resolve env endpoint (s.Local "openapi/api.swagger.json") w1 with
    | (.error err, w2) =>
      (some (.wrapf err "cannot create openapi api"), { s with restEndpoint := none }, w2)
    | (.ok rest, w2) =>
      (none, { s with restEndpoint := some rest, endpoints := [rest] }, w2)

/-- What `Create` returns: `s.Builder.CreateError(err)`, the pair `nil, err`, or
`s.Base.Builder.CreateResponse(ctx, s.Settings)`. -/
inductive CreateResult where
  | createError (err : Err)
  | failed (err : Err)
  | createResponse (settings : Settings)
deriving DecidableEq, Repr

/-- The method `Builder.Create(ctx, req)`: what it returns, the service afterwards and the
world afterwards. -/
def Create (env : Collaborators) (s : Service) (w : World) : CreateResult × Service × World :=
  match s.communication.Done with
  | .error err => (.createError err, s, w)
  | .ok session =>
    let s := { s with settings := { s.settings with watch := (session.Confirm Watch).1 } }
    match (session.Confirm Watch).2 with
    | some err => (.createError err, s, w)
    | none =>
      let create : CreateConfiguration :=
        { information := s.information, image := none, envs := [] }
      match Templates env s .factory (.create create) w with
      | (some err, w1) => (.createError err, s, w1)
      | (none, w1) =>
        match env.newRunner ["poetry", "install"] with
        | some err => (.createError err, s, w1)
        | none =>
          match Run env ["poetry", "install"] s.sourceLocation w1 with
          | (some err, w2) => (.createError err, s, w2)
          | (none, w2) =>
            match CreateEndpoints env s w2 with
            | (some err, s3, w3) => (.failed (.wrapf err "cannot create endpoints"), s3, w3)
            | (none, s3, w3) => (.createResponse s3.settings, s3, w3)

/-! ## `Builder.Build` and `Builder.Deploy` (builder.go) -/

/-- What `Build` returns: the pair `nil, err` or an empty `BuildResponse`. -/
inductive BuildResult where
  | failed (err : Err)
  | buildResponse
deriving DecidableEq, Repr

/-- The template input assembled by `Build`. -/
def dockerTemplating (env : Collaborators) (s : Service) (w : World) : DockerTemplating :=
  { components := env.requirementsAll w.fs,
    runtimePackages := s.settings.runtimePackages,
    envs := [] }

/-- The configuration `Build` hands to `dockerhelpers.NewBuilder`. -/
def builderConfiguration (s : Service) (image : DockerImage) : BuilderConfiguration :=
  { root := s.location, dockerfile := "builder/Dockerfile", destination := image }

/-- The method `Builder.Build(ctx, req)`: what it returns and the world afterwards. -/
def Build (env : Collaborators) (s : Service) (req : BuildRequest) (w : World) :
    BuildResult × World :=
  let image := env.dockerImage s.information req.buildContext
  let docker := dockerTemplating env s w
  match DeleteFile env (s.Local "builder/Dockerfile") w with
  | (some err, w1) => (.failed (.wrapf err "cannot remove dockerfile"), w1)
  | (none, w1) =>
    match Templates env s .builder (.docker docker) w1 with
    | (some err, w2) => (.failed (.wrapf err "cannot copy and apply template"), w2)
    | (none, w2) =>
      match env.newBuilder (builderConfiguration s image) with
      | some err => (.failed (.wrapf err "cannot create builder"), w2)
      | none =>
        match DockerBuild env (builderConfiguration s image) w2 with
        | (some err, w3) => (.failed (.wrapf err "cannot build image"), w3)
        | (none, w3) => (.buildResponse, w3)

/-- What `Deploy` returns: `s.Builder.DeployError(err)` or `s.Builder.DeployResponse()`. -/
inductive DeployResult where
  | deployError (err : Err)
  | deployResponse
deriving DecidableEq, Repr

/-- The deployment descriptor assembled by `Deploy` from a rendered configuration map. -/
def deploymentParams (env : Collaborators) (s : Service) (req : DeploymentRequest)
    (cfMap : ConfigMap) : DeploymentTemplateInput :=
  { image := env.dockerImage s.information req.buildContext,
    information := s.information,
    deploymentConfiguration := { replicas := 1 },
    configMap := cfMap }

/-- The method `Builder.Deploy(ctx, req)`: what it returns and the world afterwards. -/
def Deploy (env : Collaborators) (s : Service) (req : DeploymentRequest) (w : World) :
    DeployResult × World :=
  match env.envsAsConfigMapData s.environmentVariables with
  | .error err => (.deployError err, w)
  | .ok cfMap =>
    match BuilderDeploy env req (deploymentParams env s req cfMap) w with
    | (some err, w1) => (.deployError err, w1)
    | (none, w1) => (.deployResponse, w1)

/-! ## Names used in the statements -/

/-- The document `LoadEndpoints` hands to the resolver. -/
def loadDocument (s : Service) : Path :=
  s.Local "swagger/api.swagger.json"

/-- The document `CreateEndpoints` checks, generates and hands to the resolver. -/
def createDocument (s : Service) : Path :=
  s.Local "openapi/api.swagger.json"

/-- Whether a declaration is of kind REST. -/
def isREST (endpoint : Endpoint) : Bool :=
  decide (endpoint.api = standards.REST)

/-- The resolver call the loop makes for a declaration. -/
def resolveEvent (s : Service) (makePublic : Bool) (endpoint : Endpoint) : Event :=
  Event.resolve (prepare s.configuration makePublic endpoint) (loadDocument s)

/-- What the resolver answers for a declaration, on given files. -/
def resolved (env : Collaborators) (s : Service) (makePublic : Bool) (fs : FS)
    (endpoint : Endpoint) : Except Err V0Endpoint :=
  env.newRestAPIFromOpenAPI fs (prepare s.configuration makePublic endpoint) (loadDocument s)

/-- The scaffold rendering call of `Create`. -/
def scaffoldEvent (s : Service) : Event :=
  Event.templates .factory
    (.create { information := s.information, image := none, envs := [] })

/-- The dependency install call of `Create`: `poetry install` in the source directory. -/
def installEvent (s : Service) : Event :=
  Event.run ["poetry", "install"] s.sourceLocation

/-- The template input of the scaffold. -/
def createConfiguration (s : Service) : CreateConfiguration :=
  { information := s.information, image := none, envs := [] }

/-- The service once `Create` has stored the answer of the watch-mode confirmation. -/
def confirmed (s : Service) (session : Session) : Service :=
  { s with settings := { s.settings with watch := (session.Confirm Watch).1 } }

/-- The generator call of `GenerateOpenAPI`. -/
def generateEvent (s : Service) : Event :=
  Event.run ["poetry", "run", "python", "openapi.py"] s.sourceLocation

/-- The resolver call of `CreateEndpoints`. -/
def deriveEvent (env : Collaborators) (s : Service) : Event :=
  Event.resolve (env.baseEndpoint s.configuration standards.REST) (createDocument s)

/-- The build descriptor, `builder/Dockerfile` under the service location. -/
def descriptor (s : Service) : Path :=
  s.Local "builder/Dockerfile"

/-- The calls of a `Build` that runs to the end, in order: delete the descriptor, render
the builder templates, build the image. -/
def buildEvents (env : Collaborators) (s : Service) (req : BuildRequest) (w : World) :
    List Event :=
  [Event.deleteFile (descriptor s),
   Event.templates .builder (.docker (dockerTemplating env s w)),
   Event.dockerBuild (builderConfiguration s (env.dockerImage s.information req.buildContext))]

/-- The world once `Build` has deleted the descriptor. -/
def afterDelete (s : Service) (w : World) : World :=
  { fs := FS.remove w.fs (descriptor s),
    trace := w.trace ++ [Event.deleteFile (descriptor s)] }

/-- The template engine writes a descriptor whose content is determined by the template
input whenever no descriptor is there when it starts. -/
def DescriptorFromInput (env : Collaborators) (s : Service) : Prop :=
  ∀ (input : TemplateInput) (fs fs2 : FS),
    FS.read fs (descriptor s) = none → FS.read fs2 (descriptor s) = none →
    (env.templates s .builder input fs).1 = none →
    (env.templates s .builder input fs2).1 = none →
    FS.read (env.templates s .builder input fs).2 (descriptor s) =
      FS.read (env.templates s .builder input fs2).2 (descriptor s)

/-- The service with the declarations of another kind than REST removed. -/
def onlyREST (s : Service) : Service :=
  { s with configuration :=
      { s.configuration with endpoints := s.configuration.endpoints.filter isREST } }

/-! ## A concrete instance -/

namespace Example

/-- A resolver: the document must exist and be non-empty; the resolved endpoint carries
the declaration and the document. -/
def newRestAPIFromOpenAPI (fs : FS) (endpoint : Endpoint) (p : Path) :
    Except Err V0Endpoint :=
  match FS.read fs p with
  | none => .error (.raised "no such file")
  | some doc =>
    if doc = "" then .error (.raised "malformed document")
    else .ok { name := endpoint.name, application := endpoint.application,
               service := endpoint.service, api := endpoint.api,
               visibility := endpoint.visibility, rest := doc }

/-- A template engine that keeps files that exist: the builder set writes the descriptor
from the components when there is none, the factory set writes a source file. -/
def templates (s : Service) (set : TemplateSet) (input : TemplateInput) (fs : FS) :
    Option Err × FS :=
  match set, input with
  | .builder, .docker d =>
    if (FS.read fs (descriptor s)).isSome then (none, fs)
    else (none, (descriptor s, String.intercalate " " d.components) :: fs)
  | .factory, .create _ => (none, (s.Local "src/main.py", "app") :: fs)
  | _, _ => (some (.raised "wrong template input"), fs)

/-- Collaborators that all succeed, except that the resolver needs a document. -/
def env : Collaborators :=
  { newRestAPIFromOpenAPI := newRestAPIFromOpenAPI,
    baseEndpoint := fun cfg api =>
      { name := api, application := cfg.application, service := cfg.name, api := api,
        visibility := "private" },
    dockerImage := fun info bc =>
      { name := info.application ++ "/" ++ info.service, tag := bc.target },
    requirementsAll := fun _ => ["service.codefly.yaml", "."],
    deleteFile := fun _ _ => none,
    templates := templates,
    newRunner := fun _ => none,
    run := fun _ _ fs => (none, fs),
    newBuilder := fun _ => none,
    dockerBuild := fun _ _ => none,
    envsAsConfigMapData := fun envs => .ok (envs.map (fun e => (e, e))),
    builderDeploy := fun _ _ fs => (none, fs) }

/-- The same collaborators with a file deletion that fails. -/
def envDeleteFails : Collaborators :=
  { env with deleteFile := fun _ _ => some (.raised "permission denied") }

/-- The same collaborators with a builder template set that fails. -/
def envRenderFails : Collaborators :=
  { env with templates := fun _ _ _ fs => (some (.raised "template error"), fs) }

/-- The same collaborators with a configuration map renderer that fails. -/
def envConfigMapFails : Collaborators :=
  { env with envsAsConfigMapData := fun _ => .error (.raised "malformed variable") }

/-- A REST declaration. -/
def restDeclaration : Endpoint :=
  { name := "rest", application := "orders", service := "api", api := standards.REST,
    visibility := "private" }

/-- A gRPC declaration. -/
def grpcDeclaration : Endpoint :=
  { name := "grpc", application := "", service := "", api := standards.GRPC,
    visibility := "private" }

/-- A service `orders/api` with no declared endpoint and an answered confirmation. -/
def service : Service :=
  { information := { application := "orders", service := "api", agent := "python-fastapi" },
    configuration := { application := "orders", name := "api", endpoints := [] },
    location := "/svc",
    sourceLocation := "/svc/src",
    settings := { debug := false, watch := false, runtimePackages := [] },
    endpoints := [],
    restEndpoint := none,
    environmentVariables := ["DB=postgres"],
    communication := { registered := createCommunicate, done := some { answers := [(Watch, true)] } } }

/-- The service with a declaration list. -/
def serviceWith (declared : List Endpoint) : Service :=
  { service with configuration := { service.configuration with endpoints := declared } }

/-- The service when the confirmation exchange never took place. -/
def serviceUnanswered : Service :=
  { service with communication := { registered := createCommunicate, done := none } }

/-- An empty service directory. -/
def emptyWorld : World :=
  { fs := [], trace := [] }

/-- A service directory holding one document at the path `LoadEndpoints` reads and
another one at the path `CreateEndpoints` reads. -/
def twoDocuments : World :=
  { fs := [("/svc/swagger/api.swagger.json", "paths: /v1"),
           ("/svc/openapi/api.swagger.json", "paths: /v2")],
    trace := [] }

/-- A service directory whose generated document is empty. -/
def malformedDocument : World :=
  { fs := [("/svc/openapi/api.swagger.json", "")], trace := [] }

/-- A service directory with a stale descriptor. -/
def staleDescriptor : World :=
  { fs := [("/svc/builder/Dockerfile", "FROM scratch")], trace := [] }

/-- A build request. -/
def buildRequest : BuildRequest :=
  { buildContext := { target := "latest" } }

/-- A deployment request for the same build context. -/
def deploymentRequest : DeploymentRequest :=
  { buildContext := { target := "latest" } }

end Example

/-! ## Facts about the loop of `LoadEndpoints` -/

theorem prepare_api (cfg : Configuration) (makePublic : Bool) (endpoint : Endpoint) :
    (prepare cfg makePublic endpoint).api = endpoint.api := by
  unfold prepare
  split <;> rfl

theorem loadLoop_cons_other (env : Collaborators) (s : Service) (makePublic : Bool)
    (e : Endpoint) (rest : List Endpoint) (acc : List V0Endpoint) (w : World)
    (h : e.api ≠ standards.REST) :
    loadLoop env s makePublic (e :: rest) acc w =
      { loadLoop env s makePublic rest acc w with
        declared := prepare s.configuration makePublic e ::
          (loadLoop env s makePublic rest acc w).declared } := by
  simp [loadLoop, prepare_api, h]

theorem loadLoop_cons_error (env : Collaborators) (s : Service) (makePublic : Bool)
    (e : Endpoint) (rest : List Endpoint) (acc : List V0Endpoint) (w : World) (err : Err)
    (h : e.api = standards.REST) (hr : resolved env s makePublic w.fs e = .error err) :
    loadLoop env s makePublic (e :: rest) acc w =
      { err := some (.wrapf err "cannot create openapi api"),
        declared := prepare s.configuration makePublic e :: rest,
        endpoints := acc,
        world := { w with trace := w.trace ++ [resolveEvent s makePublic e] } } := by
  unfold resolved loadDocument at hr
  simp [loadLoop, prepare_api, h, resolve, hr, resolveEvent, loadDocument]

theorem loadLoop_cons_ok (env : Collaborators) (s : Service) (makePublic : Bool)
    (e : Endpoint) (rest : List Endpoint) (acc : List V0Endpoint) (w : World) (r : V0Endpoint)
    (h : e.api = standards.REST) (hr : resolved env s makePublic w.fs e = .ok r) :
    loadLoop env s makePublic (e :: rest) acc w =
      { loadLoop env s makePublic rest (acc ++ [r])
          { w with trace := w.trace ++ [resolveEvent s makePublic e] } with
        declared := prepare s.configuration makePublic e ::
          (loadLoop env s makePublic rest (acc ++ [r])
            { w with trace := w.trace ++ [resolveEvent s makePublic e] }).declared } := by
  unfold resolved loadDocument at hr
  simp [loadLoop, prepare_api, h, resolve, hr, resolveEvent, loadDocument]

theorem loadLoop_fs (env : Collaborators) (s : Service) (makePublic : Bool)
    (eps : List Endpoint) (acc : List V0Endpoint) (w : World) :
    (loadLoop env s makePublic eps acc w).world.fs = w.fs := by
  induction eps generalizing acc w with
  | nil => simp [loadLoop]
  | cons e rest ih =>
    by_cases h : e.api = standards.REST
    · cases hr : resolved env s makePublic w.fs e with
      | error err => rw [loadLoop_cons_error env s makePublic e rest acc w err h hr]
      | ok r =>
        rw [loadLoop_cons_ok env s makePublic e rest acc w r h hr]
        simpa using ih (acc ++ [r]) { w with trace := w.trace ++ [resolveEvent s makePublic e] }
    · rw [loadLoop_cons_other env s makePublic e rest acc w h]
      simpa using ih acc w

theorem loadLoop_noREST (env : Collaborators) (s : Service) (makePublic : Bool)
    (eps : List Endpoint) (acc : List V0Endpoint) (w : World)
    (h : ∀ e ∈ eps, e.api ≠ standards.REST) :
    loadLoop env s makePublic eps acc w =
      { err := none, declared := eps.map (prepare s.configuration makePublic),
        endpoints := acc, world := w } := by
  induction eps with
  | nil => simp [loadLoop]
  | cons e rest ih =>
    have he : e.api ≠ standards.REST := h e (List.mem_cons_self _ _)
    have hrest : ∀ x ∈ rest, x.api ≠ standards.REST :=
      fun x hx => h x (List.mem_cons_of_mem _ hx)
    rw [loadLoop_cons_other env s makePublic e rest acc w he, ih hrest]
    simp

theorem loadLoop_filter (env : Collaborators) (s : Service) (makePublic : Bool)
    (eps : List Endpoint) (acc : List V0Endpoint) (w : World) :
    (loadLoop env s makePublic (eps.filter isREST) acc w).err =
        (loadLoop env s makePublic eps acc w).err ∧
      (loadLoop env s makePublic (eps.filter isREST) acc w).endpoints =
        (loadLoop env s makePublic eps acc w).endpoints ∧
      (loadLoop env s makePublic (eps.filter isREST) acc w).world =
        (loadLoop env s makePublic eps acc w).world := by
  induction eps generalizing acc w with
  | nil => simp [loadLoop]
  | cons e rest ih =>
    by_cases h : e.api = standards.REST
    · have hf : (e :: rest).filter isREST = e :: rest.filter isREST := by
        simp [List.filter, isREST, h]
      rw [hf]
      cases hr : resolved env s makePublic w.fs e with
      | error err =>
        rw [loadLoop_cons_error env s makePublic e rest acc w err h hr,
          loadLoop_cons_error env s makePublic e (rest.filter isREST) acc w err h hr]
        simp
      | ok r =>
        rw [loadLoop_cons_ok env s makePublic e rest acc w r h hr,
          loadLoop_cons_ok env s makePublic e (rest.filter isREST) acc w r h hr]
        simpa using ih (acc ++ [r]) { w with trace := w.trace ++ [resolveEvent s makePublic e] }
    · have hf : (e :: rest).filter isREST = rest.filter isREST := by
        simp [List.filter, isREST, h]
      rw [hf, loadLoop_cons_other env s makePublic e rest acc w h]
      simpa using ih acc w

theorem loadLoop_ok (env : Collaborators) (s : Service) (makePublic : Bool)
    (eps : List Endpoint) (acc : List V0Endpoint) (w : World)
    (hok : (loadLoop env s makePublic eps acc w).err = none) :
    (loadLoop env s makePublic eps acc w).endpoints.map Except.ok =
        acc.map Except.ok ++ (eps.filter isREST).map (resolved env s makePublic w.fs) ∧
      (loadLoop env s makePublic eps acc w).world.trace =
        w.trace ++ (eps.filter isREST).map (resolveEvent s makePublic) ∧
      (loadLoop env s makePublic eps acc w).declared =
        eps.map (prepare s.configuration makePublic) := by
  induction eps generalizing acc w with
  | nil => simp [loadLoop]
  | cons e rest ih =>
    by_cases h : e.api = standards.REST
    · have hf : (e :: rest).filter isREST = e :: rest.filter isREST := by
        simp [List.filter, isREST, h]
      rw [hf]
      cases hr : resolved env s makePublic w.fs e with
      | error err =>
        rw [loadLoop_cons_error env s makePublic e rest acc w err h hr] at hok
        simp at hok
      | ok r =>
        rw [loadLoop_cons_ok env s makePublic e rest acc w r h hr] at hok ⊢
        have ih1 := ih (acc ++ [r])
          { w with trace := w.trace ++ [resolveEvent s makePublic e] } (by simpa using hok)
        obtain ⟨h1, h2, h3⟩ := ih1
        refine ⟨?_, ?_, ?_⟩
        · simp only [h1]
          simp [hr]
        · simp only [h2]
          simp
        · simp only [h3]
          simp
    · have hf : (e :: rest).filter isREST = rest.filter isREST := by
        simp [List.filter, isREST, h]
      rw [hf]
      rw [loadLoop_cons_other env s makePublic e rest acc w h] at hok ⊢
      have ih1 := ih acc w (by simpa using hok)
      obtain ⟨h1, h2, h3⟩ := ih1
      refine ⟨?_, ?_, ?_⟩
      · simp only [h1]
      · simp only [h2]
      · simp only [h3]
        simp

theorem loadLoop_first_failure (env : Collaborators) (s : Service) (makePublic : Bool)
    (pre : List Endpoint) (e : Endpoint) (post : List Endpoint) (err : Err)
    (acc : List V0Endpoint) (w : World)
    (hpre : ∀ x ∈ pre, x.api = standards.REST →
      ∃ r, resolved env s makePublic w.fs x = .ok r)
    (he : e.api = standards.REST)
    (herr : resolved env s makePublic w.fs e = .error err) :
    (loadLoop env s makePublic (pre ++ e :: post) acc w).err =
        some (.wrapf err "cannot create openapi api") ∧
      (loadLoop env s makePublic (pre ++ e :: post) acc w).world.trace =
        w.trace ++ (pre.filter isREST ++ [e]).map (resolveEvent s makePublic) ∧
      (loadLoop env s makePublic (pre ++ e :: post) acc w).declared =
        (pre ++ [e]).map (prepare s.configuration makePublic) ++ post := by
  induction pre generalizing acc w with
  | nil =>
    rw [List.nil_append, loadLoop_cons_error env s makePublic e post acc w err he herr]
    simp
  | cons x rest ih =>
    have hrest : ∀ (w1 : World), w1.fs = w.fs → ∀ y ∈ rest, y.api = standards.REST →
        ∃ r, resolved env s makePublic w1.fs y = .ok r := by
      intro w1 hw y hy hapi
      rw [hw]
      exact hpre y (List.mem_cons_of_mem _ hy) hapi
    rw [List.cons_append]
    by_cases h : x.api = standards.REST
    · have hf : (x :: rest).filter isREST = x :: rest.filter isREST := by
        simp [List.filter, isREST, h]
      rw [hf]
      obtain ⟨r, hr⟩ := hpre x (List.mem_cons_self _ _) h
      rw [loadLoop_cons_ok env s makePublic x (rest ++ e :: post) acc w r h hr]
      obtain ⟨h1, h2, h3⟩ := ih (acc ++ [r])
        { w with trace := w.trace ++ [resolveEvent s makePublic x] }
        (hrest _ rfl) herr
      refine ⟨?_, ?_, ?_⟩
      · simpa using h1
      · simp only [h2]
        simp
      · simp only [h3]
        simp
    · have hf : (x :: rest).filter isREST = rest.filter isREST := by
        simp [List.filter, isREST, h]
      rw [hf, loadLoop_cons_other env s makePublic x (rest ++ e :: post) acc w h]
      obtain ⟨h1, h2, h3⟩ := ih acc w (hrest _ rfl) herr
      refine ⟨?_, ?_, ?_⟩
      · simpa using h1
      · simp only [h2]
      · simp only [h3]
        simp

theorem loadLoop_err_iff (env : Collaborators) (s : Service) (makePublic : Bool)
    (eps : List Endpoint) (acc : List V0Endpoint) (w : World) :
    (loadLoop env s makePublic eps acc w).err ≠ none ↔
      ∃ e ∈ eps, e.api = standards.REST ∧
        ∃ err, resolved env s makePublic w.fs e = .error err := by
  induction eps generalizing acc w with
  | nil => simp [loadLoop]
  | cons e rest ih =>
    by_cases h : e.api = standards.REST
    · cases hr : resolved env s makePublic w.fs e with
      | error err =>
        rw [loadLoop_cons_error env s makePublic e rest acc w err h hr]
        simp only [ne_eq, reduceCtorEq, not_false_eq_true, true_iff]
        exact ⟨e, List.mem_cons_self _ _, h, err, hr⟩
      | ok r =>
        rw [loadLoop_cons_ok env s makePublic e rest acc w r h hr]
        have ih1 := ih (acc ++ [r])
          { w with trace := w.trace ++ [resolveEvent s makePublic e] }
        simp only [List.mem_cons, exists_eq_or_imp] at ih1 ⊢
        rw [ih1]
        simp [hr]
    · rw [loadLoop_cons_other env s makePublic e rest acc w h]
      have ih1 := ih acc w
      simp only [List.mem_cons, exists_eq_or_imp] at ih1 ⊢
      rw [ih1]
      simp [h]

theorem loadLoop_congr (env : Collaborators) (s s2 : Service) (makePublic : Bool)
    (happ : s2.configuration.application = s.configuration.application)
    (hname : s2.configuration.name = s.configuration.name)
    (hloc : s2.location = s.location)
    (eps : List Endpoint) (acc : List V0Endpoint) (w : World) :
    loadLoop env s2 makePublic eps acc w = loadLoop env s makePublic eps acc w := by
  induction eps generalizing acc w with
  | nil => simp [loadLoop]
  | cons e rest ih =>
    simp only [loadLoop, prepare, Service.Local, happ, hname, hloc, ih]

theorem loadLoop_trace (env : Collaborators) (s : Service) (makePublic : Bool)
    (eps : List Endpoint) (acc : List V0Endpoint) (w : World) :
    ∃ evs, (loadLoop env s makePublic eps acc w).world.trace = w.trace ++ evs ∧
      ∀ ev ∈ evs, ∃ e ∈ eps, e.api = standards.REST ∧ ev = resolveEvent s makePublic e := by
  induction eps generalizing acc w with
  | nil => exact ⟨[], by simp [loadLoop]⟩
  | cons e rest ih =>
    by_cases h : e.api = standards.REST
    · cases hr : resolved env s makePublic w.fs e with
      | error err =>
        rw [loadLoop_cons_error env s makePublic e rest acc w err h hr]
        refine ⟨[resolveEvent s makePublic e], rfl, ?_⟩
        intro ev hev
        exact ⟨e, List.mem_cons_self _ _, h, by simpa using hev⟩
      | ok r =>
        rw [loadLoop_cons_ok env s makePublic e rest acc w r h hr]
        obtain ⟨evs, h1, h2⟩ := ih (acc ++ [r])
          { w with trace := w.trace ++ [resolveEvent s makePublic e] }
        refine ⟨resolveEvent s makePublic e :: evs, ?_, ?_⟩
        · simp only [h1]
          simp
        · intro ev hev
          rcases List.mem_cons.mp hev with hev | hev
          · exact ⟨e, List.mem_cons_self _ _, h, hev⟩
          · obtain ⟨x, hx, hx1, hx2⟩ := h2 ev hev
            exact ⟨x, List.mem_cons_of_mem _ hx, hx1, hx2⟩
    · rw [loadLoop_cons_other env s makePublic e rest acc w h]
      obtain ⟨evs, h1, h2⟩ := ih acc w
      refine ⟨evs, h1, ?_⟩
      intro ev hev
      obtain ⟨x, hx, hx1, hx2⟩ := h2 ev hev
      exact ⟨x, List.mem_cons_of_mem _ hx, hx1, hx2⟩

/-! ## Claims about `LoadEndpoints` and `CreateEndpoints` -/

/-- C1: a declared endpoint whose API kind is not REST never makes `LoadEndpoints` fail.
Dropping every such declaration from the configuration leaves the returned error, the
resulting `Endpoints` and the calls made to the resolver unchanged; every resolver call
made is for a declaration of kind REST; and when no declaration is of kind REST,
`LoadEndpoints` returns no error, leaves `Endpoints` empty and does not touch the world,
whatever the documents on disk are. -/
theorem LoadEndpoints_skips_other_kinds (env : Collaborators) (s : Service)
    (makePublic : Bool) (w : World) :
    ((LoadEndpoints env s makePublic w).1 = (LoadEndpoints env (onlyREST s) makePublic w).1 ∧
      (LoadEndpoints env s makePublic w).2.1.endpoints =
        (LoadEndpoints env (onlyREST s) makePublic w).2.1.endpoints ∧
      (LoadEndpoints env s makePublic w).2.2 =
        (LoadEndpoints env (onlyREST s) makePublic w).2.2) ∧
    (∃ evs, (LoadEndpoints env s makePublic w).2.2.trace = w.trace ++ evs ∧
      ∀ ev ∈ evs, ∃ e ∈ s.configuration.endpoints,
        e.api = standards.REST ∧ ev = resolveEvent s makePublic e) ∧
    ((∀ e ∈ s.configuration.endpoints, e.api ≠ standards.REST) →
      (LoadEndpoints env s makePublic w).1 = none ∧
      (LoadEndpoints env s makePublic w).2.1.endpoints = [] ∧
      (LoadEndpoints env s makePublic w).2.2 = w) := by
  refine ⟨?_, ?_, ?_⟩
  · have hc := loadLoop_congr env s (onlyREST s) makePublic rfl rfl rfl
      (s.configuration.endpoints.filter isREST) [] w
    have hf := loadLoop_filter env s makePublic s.configuration.endpoints [] w
    simp only [LoadEndpoints]
    have hd : (onlyREST s).configuration.endpoints =
        s.configuration.endpoints.filter isREST := rfl
    rw [hd, hc]
    exact ⟨hf.1.symm, hf.2.1.symm, hf.2.2.symm⟩
  · exact loadLoop_trace env s makePublic s.configuration.endpoints [] w
  · intro h
    simp only [LoadEndpoints]
    rw [loadLoop_noREST env s makePublic s.configuration.endpoints [] w h]
    exact ⟨rfl, rfl, rfl⟩

/-- A concrete instance: a configuration that declares only a gRPC endpoint, in an empty
service directory. -/
theorem LoadEndpoints_skips_other_kinds_witness :
    (LoadEndpoints Example.env (Example.serviceWith [Example.grpcDeclaration]) true
        Example.emptyWorld).1 = none ∧
      (LoadEndpoints Example.env (Example.serviceWith [Example.grpcDeclaration]) true
        Example.emptyWorld).2.1.endpoints = [] ∧
      (LoadEndpoints Example.env (Example.serviceWith [Example.grpcDeclaration]) true
        Example.emptyWorld).2.2 = Example.emptyWorld :=
  (LoadEndpoints_skips_other_kinds Example.env
    (Example.serviceWith [Example.grpcDeclaration]) true Example.emptyWorld).2.2
    (by decide)

/-- C8: `LoadEndpoints` returns an error exactly when the resolver fails for some
declared endpoint of kind REST.  When the declarations are `pre ++ e :: post`, every REST
declaration in `pre` resolves and the REST declaration `e` fails with `err`, the error
returned is `err` wrapped with "cannot create openapi api", and the resolver has been
called for the REST declarations of `pre` and for `e`, in order, and for nothing in
`post`. -/
theorem LoadEndpoints_error_iff_first_failure (env : Collaborators) (s : Service)
    (makePublic : Bool) (w : World) :
    ((LoadEndpoints env s makePublic w).1 ≠ none ↔
      ∃ e ∈ s.configuration.endpoints, e.api = standards.REST ∧
        ∃ err, resolved env s makePublic w.fs e = .error err) ∧
    (∀ (pre : List Endpoint) (e : Endpoint) (post : List Endpoint) (err : Err),
      s.configuration.endpoints = pre ++ e :: post →
      (∀ x ∈ pre, x.api = standards.REST →
        ∃ r, resolved env s makePublic w.fs x = .ok r) →
      e.api = standards.REST →
      resolved env s makePublic w.fs e = .error err →
      (LoadEndpoints env s makePublic w).1 = some (.wrapf err "cannot create openapi api") ∧
      (LoadEndpoints env s makePublic w).2.2.trace =
        w.trace ++ (pre.filter isREST ++ [e]).map (resolveEvent s makePublic)) := by
  refine ⟨?_, ?_⟩
  · simp only [LoadEndpoints]
    exact loadLoop_err_iff env s makePublic s.configuration.endpoints [] w
  · intro pre e post err hd hpre he herr
    simp only [LoadEndpoints]
    rw [hd]
    have h := loadLoop_first_failure env s makePublic pre e post err [] w hpre he herr
    exact ⟨h.1, h.2.1⟩

/-- A concrete instance: a gRPC declaration, then a REST declaration that fails because the
document is missing, then another REST declaration that is never resolved. -/
theorem LoadEndpoints_error_iff_first_failure_witness :
    (LoadEndpoints Example.env
        (Example.serviceWith
          [Example.grpcDeclaration, Example.restDeclaration, Example.restDeclaration])
        false Example.emptyWorld).1 =
        some (.wrapf (.raised "no such file") "cannot create openapi api") ∧
      (LoadEndpoints Example.env
        (Example.serviceWith
          [Example.grpcDeclaration, Example.restDeclaration, Example.restDeclaration])
        false Example.emptyWorld).2.2.trace =
        [Event.resolve Example.restDeclaration "/svc/swagger/api.swagger.json"] :=
  (LoadEndpoints_error_iff_first_failure Example.env
    (Example.serviceWith
      [Example.grpcDeclaration, Example.restDeclaration, Example.restDeclaration])
    false Example.emptyWorld).2
    [Example.grpcDeclaration] Example.restDeclaration [Example.restDeclaration]
    (.raised "no such file") rfl
    (by
      intro x hx hapi
      rw [List.mem_singleton] at hx
      subst hx
      exact absurd hapi (by decide))
    rfl rfl

/-! ## Facts about `CreateEndpoints` and `Create` -/

theorem GenerateOpenAPI_trace (env : Collaborators) (s : Service) (w : World) :
    (GenerateOpenAPI env s w).2.trace = w.trace ∨
      (GenerateOpenAPI env s w).2.trace = w.trace ++ [generateEvent s] := by
  unfold GenerateOpenAPI
  cases hn : env.newRunner ["poetry", "run", "python", "openapi.py"] with
  | some err => left; rfl
  | none =>
    right
    cases hr : (env.run ["poetry", "run", "python", "openapi.py"] s.sourceLocation w.fs).1 <;>
      simp [Run, hr, generateEvent]

theorem generateIfMissing_trace (env : Collaborators) (s : Service) (w : World) :
    (generateIfMissing env s w).2.trace = w.trace ∨
      (generateIfMissing env s w).2.trace = w.trace ++ [generateEvent s] := by
  unfold generateIfMissing
  by_cases h : FileExists w (s.Local "openapi/api.swagger.json") = true
  · left; simp [h]
  · simp only [h]
    exact GenerateOpenAPI_trace env s w

theorem CreateEndpoints_generate_error (env : Collaborators) (s : Service) (w w1 : World)
    (err : Err) (hg : generateIfMissing env s w = (some err, w1)) :
    CreateEndpoints env s w = (some (.wrapf err "cannot generate openapi"), s, w1) := by
  simp [CreateEndpoints, hg]

theorem CreateEndpoints_resolve_error (env : Collaborators) (s : Service) (w w1 : World)
    (err : Err) (hg : generateIfMissing env s w = (none, w1))
    (hr : env.newRestAPIFromOpenAPI w1.fs (env.baseEndpoint s.configuration standards.REST)
      (createDocument s) = .error err) :
    CreateEndpoints env s w =
      (some (.wrapf err "cannot create openapi api"), { s with restEndpoint := none },
       { w1 with trace := w1.trace ++ [deriveEvent env s] }) := by
  unfold createDocument at hr
  simp [CreateEndpoints, hg, resolve, hr, deriveEvent, createDocument]

theorem CreateEndpoints_resolve_ok (env : Collaborators) (s : Service) (w w1 : World)
    (r : V0Endpoint) (hg : generateIfMissing env s w = (none, w1))
    (hr : env.newRestAPIFromOpenAPI w1.fs (env.baseEndpoint s.configuration standards.REST)
      (createDocument s) = .ok r) :
    CreateEndpoints env s w =
      (none, { s with restEndpoint := some r, endpoints := [r] },
       { w1 with trace := w1.trace ++ [deriveEvent env s] }) := by
  unfold createDocument at hr
  simp [CreateEndpoints, hg, resolve, hr, deriveEvent, createDocument]

theorem CreateEndpoints_ok (env : Collaborators) (s : Service) (w : World)
    (h : (CreateEndpoints env s w).1 = none) :
    ∃ r, env.newRestAPIFromOpenAPI (CreateEndpoints env s w).2.2.fs
          (env.baseEndpoint s.configuration standards.REST) (createDocument s) = .ok r ∧
      (CreateEndpoints env s w).2.1 = { s with restEndpoint := some r, endpoints := [r] } := by
  rcases hg : generateIfMissing env s w with ⟨_ | err, w1⟩
  · cases hr : env.newRestAPIFromOpenAPI w1.fs
        (env.baseEndpoint s.configuration standards.REST) (createDocument s) with
    | error err =>
      rw [CreateEndpoints_resolve_error env s w w1 err hg hr] at h
      simp at h
    | ok r =>
      rw [CreateEndpoints_resolve_ok env s w w1 r hg hr]
      exact ⟨r, hr, rfl⟩
  · rw [CreateEndpoints_generate_error env s w w1 err hg] at h
    simp at h

theorem CreateEndpoints_trace (env : Collaborators) (s : Service) (w : World) :
    ∃ evs, (CreateEndpoints env s w).2.2.trace = w.trace ++ evs ∧
      ∀ ev ∈ evs, ev = generateEvent s ∨ ev = deriveEvent env s := by
  have hgt := generateIfMissing_trace env s w
  rcases hg : generateIfMissing env s w with ⟨_ | err, w1⟩
  · rw [hg] at hgt
    simp only at hgt
    cases hr : env.newRestAPIFromOpenAPI w1.fs
        (env.baseEndpoint s.configuration standards.REST) (createDocument s) with
    | error err =>
      rw [CreateEndpoints_resolve_error env s w w1 err hg hr]
      rcases hgt with hgt | hgt
      · exact ⟨[deriveEvent env s], by simp [hgt], by simp⟩
      · exact ⟨[generateEvent s, deriveEvent env s], by simp [hgt], by simp⟩
    | ok r =>
      rw [CreateEndpoints_resolve_ok env s w w1 r hg hr]
      rcases hgt with hgt | hgt
      · exact ⟨[deriveEvent env s], by simp [hgt], by simp⟩
      · exact ⟨[generateEvent s, deriveEvent env s], by simp [hgt], by simp⟩
  · rw [hg] at hgt
    simp only at hgt
    rw [CreateEndpoints_generate_error env s w w1 err hg]
    rcases hgt with hgt | hgt
    · exact ⟨[], by simp [hgt], by simp⟩
    · exact ⟨[generateEvent s], by simp [hgt], by simp⟩

theorem CreateEndpoints_prior (env : Collaborators) (s : Service) (prior : List V0Endpoint)
    (w : World) :
    (CreateEndpoints env { s with endpoints := prior } w).1 = (CreateEndpoints env s w).1 ∧
      (CreateEndpoints env { s with endpoints := prior } w).2.2 =
        (CreateEndpoints env s w).2.2 ∧
      ((CreateEndpoints env s w).1 = none →
        (CreateEndpoints env { s with endpoints := prior } w).2.1 =
          (CreateEndpoints env s w).2.1) := by
  have hgen : generateIfMissing env { s with endpoints := prior } w =
      generateIfMissing env s w := rfl
  rcases hg : generateIfMissing env s w with ⟨_ | err, w1⟩
  · cases hr : env.newRestAPIFromOpenAPI w1.fs
        (env.baseEndpoint s.configuration standards.REST) (createDocument s) with
    | error err =>
      rw [CreateEndpoints_resolve_error env s w w1 err hg hr,
        CreateEndpoints_resolve_error env { s with endpoints := prior } w w1 err
          (hgen.trans hg) hr]
      simp [deriveEvent, createDocument, Service.Local]
    | ok r =>
      rw [CreateEndpoints_resolve_ok env s w w1 r hg hr,
        CreateEndpoints_resolve_ok env { s with endpoints := prior } w w1 r
          (hgen.trans hg) hr]
      simp [deriveEvent, createDocument, Service.Local]
  · rw [CreateEndpoints_generate_error env s w w1 err hg,
      CreateEndpoints_generate_error env { s with endpoints := prior } w w1 err
        (hgen.trans hg)]
    simp

/-- C9: `Endpoints` is replaced, never merged.  After a successful `LoadEndpoints` the
list held is, entry for entry, what the resolver returned for the declared REST entries in
declaration order; the whole outcome of `LoadEndpoints` is the same whatever `Endpoints`
held before; with no declared endpoint the result is the empty list.  After a successful
`CreateEndpoints` the list is the single endpoint the resolver returned for the base REST
endpoint (also stored as the REST endpoint of the service), whatever was held before. -/
theorem Endpoints_replaced_wholesale (env : Collaborators) (s : Service)
    (makePublic : Bool) (w : World) :
    ((LoadEndpoints env s makePublic w).1 = none →
      (LoadEndpoints env s makePublic w).2.1.endpoints.map Except.ok =
        (s.configuration.endpoints.filter isREST).map (resolved env s makePublic w.fs)) ∧
    (∀ prior : List V0Endpoint,
      LoadEndpoints env { s with endpoints := prior } makePublic w =
        LoadEndpoints env s makePublic w) ∧
    (s.configuration.endpoints = [] →
      LoadEndpoints env s makePublic w = (none, { s with endpoints := [] }, w)) ∧
    ((CreateEndpoints env s w).1 = none →
      ∃ r, env.newRestAPIFromOpenAPI (CreateEndpoints env s w).2.2.fs
            (env.baseEndpoint s.configuration standards.REST) (createDocument s) = .ok r ∧
        (CreateEndpoints env s w).2.1.endpoints = [r] ∧
        (CreateEndpoints env s w).2.1.restEndpoint = some r) ∧
    (∀ prior : List V0Endpoint, (CreateEndpoints env s w).1 = none →
      (CreateEndpoints env { s with endpoints := prior } w).1 = none ∧
      (CreateEndpoints env { s with endpoints := prior } w).2.1.endpoints =
        (CreateEndpoints env s w).2.1.endpoints) := by
  refine ⟨?_, ?_, ?_, ?_, ?_⟩
  · intro h
    simp only [LoadEndpoints] at h ⊢
    have h1 := (loadLoop_ok env s makePublic s.configuration.endpoints [] w h).1
    simpa using h1
  · intro prior
    simp only [LoadEndpoints]
    rw [loadLoop_congr env s { s with endpoints := prior } makePublic rfl rfl rfl]
  · intro h
    simp only [LoadEndpoints, h, loadLoop]
    cases s with
    | mk information configuration location sourceLocation settings endpoints restEndpoint
        environmentVariables communication =>
      cases configuration with
      | mk application name declared =>
        simp only at h
        subst h
        rfl
  · intro h
    obtain ⟨r, hr, hs⟩ := CreateEndpoints_ok env s w h
    exact ⟨r, hr, by rw [hs], by rw [hs]⟩
  · intro prior h
    obtain ⟨h1, _, h3⟩ := CreateEndpoints_prior env s prior w
    exact ⟨h1.trans h, by rw [h3 h]⟩

/-- A concrete instance: the service `orders/api` with no declared endpoint and a stale
`Endpoints` list is loaded, and a document on disk is resolved by `CreateEndpoints`. -/
theorem Endpoints_replaced_wholesale_witness :
    LoadEndpoints Example.env Example.service false Example.twoDocuments =
        (none, { Example.service with endpoints := [] }, Example.twoDocuments) ∧
      ∃ r, Example.env.newRestAPIFromOpenAPI
            (CreateEndpoints Example.env Example.service Example.twoDocuments).2.2.fs
            (Example.env.baseEndpoint Example.service.configuration standards.REST)
            (createDocument Example.service) = .ok r ∧
        (CreateEndpoints Example.env Example.service Example.twoDocuments).2.1.endpoints =
          [r] ∧
        (CreateEndpoints Example.env Example.service Example.twoDocuments).2.1.restEndpoint =
          some r :=
  ⟨(Endpoints_replaced_wholesale Example.env Example.service false
      Example.twoDocuments).2.2.1 rfl,
   (Endpoints_replaced_wholesale Example.env Example.service false
      Example.twoDocuments).2.2.2.1 (by decide)⟩

/-- The document read by `LoadEndpoints` is never the document read by `CreateEndpoints`,
wherever the service is located. -/
theorem loadDocument_ne_createDocument (s : Service) : loadDocument s ≠ createDocument s := by
  intro h
  have h1 := congrArg String.data h
  simp only [loadDocument, createDocument, Service.Local, String.data_append,
    List.append_assoc, List.append_cancel_left_eq] at h1
  exact absurd h1 (by decide)

/-- C2: on a service directory that holds one document at `swagger/api.swagger.json` and
another at `openapi/api.swagger.json`, with one REST endpoint declared that equals the base
REST endpoint, `LoadEndpoints` and `CreateEndpoints` both succeed, hand the resolver the
same endpoint but different documents, and leave different `Endpoints`. -/
theorem LoadEndpoints_and_CreateEndpoints_read_different_documents :
    (LoadEndpoints Example.env (Example.serviceWith [Example.restDeclaration]) false
        Example.twoDocuments).1 = none ∧
      (CreateEndpoints Example.env (Example.serviceWith [Example.restDeclaration])
        Example.twoDocuments).1 = none ∧
      (LoadEndpoints Example.env (Example.serviceWith [Example.restDeclaration]) false
        Example.twoDocuments).2.2.trace =
        [Event.resolve Example.restDeclaration "/svc/swagger/api.swagger.json"] ∧
      (CreateEndpoints Example.env (Example.serviceWith [Example.restDeclaration])
        Example.twoDocuments).2.2.trace =
        [Event.resolve Example.restDeclaration "/svc/openapi/api.swagger.json"] ∧
      (LoadEndpoints Example.env (Example.serviceWith [Example.restDeclaration]) false
        Example.twoDocuments).2.1.endpoints ≠
      (CreateEndpoints Example.env (Example.serviceWith [Example.restDeclaration])
        Example.twoDocuments).2.1.endpoints := by
  decide

theorem Create_done_error (env : Collaborators) (s : Service) (w : World) (err : Err)
    (hd : s.communication.Done = .error err) :
    Create env s w = (.createError err, s, w) := by
  simp [Create, hd]

theorem Create_confirm_error (env : Collaborators) (s : Service) (w : World)
    (session : Session) (err : Err)
    (hd : s.communication.Done = .ok session)
    (hc : (session.Confirm Watch).2 = some err) :
    Create env s w = (.createError err, confirmed s session, w) := by
  simp [Create, hd, hc, confirmed]

theorem Create_templates_error (env : Collaborators) (s : Service) (w w1 : World)
    (session : Session) (err : Err)
    (hd : s.communication.Done = .ok session)
    (hc : (session.Confirm Watch).2 = none)
    (ht : Templates env (confirmed s session) .factory (.create (createConfiguration s)) w =
      (some err, w1)) :
    Create env s w = (.createError err, confirmed s session, w1) := by
  unfold confirmed createConfiguration at ht
  simp [Create, hd, hc, confirmed, ht]

theorem Create_runner_error (env : Collaborators) (s : Service) (w w1 : World)
    (session : Session) (err : Err)
    (hd : s.communication.Done = .ok session)
    (hc : (session.Confirm Watch).2 = none)
    (ht : Templates env (confirmed s session) .factory (.create (createConfiguration s)) w =
      (none, w1))
    (hn : env.newRunner ["poetry", "install"] = some err) :
    Create env s w = (.createError err, confirmed s session, w1) := by
  unfold confirmed createConfiguration at ht
  simp [Create, hd, hc, confirmed, ht, hn]

theorem Create_install_error (env : Collaborators) (s : Service) (w w1 w2 : World)
    (session : Session) (err : Err)
    (hd : s.communication.Done = .ok session)
    (hc : (session.Confirm Watch).2 = none)
    (ht : Templates env (confirmed s session) .factory (.create (createConfiguration s)) w =
      (none, w1))
    (hn : env.newRunner ["poetry", "install"] = none)
    (hi : Run env ["poetry", "install"] s.sourceLocation w1 = (some err, w2)) :
    Create env s w = (.createError err, confirmed s session, w2) := by
  unfold confirmed createConfiguration at ht
  simp [Create, hd, hc, confirmed, ht, hn, hi]

theorem Create_endpoints_error (env : Collaborators) (s : Service) (w w1 w2 : World)
    (session : Session) (err : Err)
    (hd : s.communication.Done = .ok session)
    (hc : (session.Confirm Watch).2 = none)
    (ht : Templates env (confirmed s session) .factory (.create (createConfiguration s)) w =
      (none, w1))
    (hn : env.newRunner ["poetry", "install"] = none)
    (hi : Run env ["poetry", "install"] s.sourceLocation w1 = (none, w2))
    (he : (CreateEndpoints env (confirmed s session) w2).1 = some err) :
    Create env s w =
      (.failed (.wrapf err "cannot create endpoints"),
       (CreateEndpoints env (confirmed s session) w2).2) := by
  unfold confirmed createConfiguration at ht
  rcases hce : CreateEndpoints env (confirmed s session) w2 with ⟨e, s3, w3⟩
  rw [hce] at he
  simp only at he
  subst he
  unfold confirmed at hce
  simp [Create, hd, hc, ht, hn, hi, hce]

theorem Create_ok (env : Collaborators) (s : Service) (w w1 w2 : World)
    (session : Session)
    (hd : s.communication.Done = .ok session)
    (hc : (session.Confirm Watch).2 = none)
    (ht : Templates env (confirmed s session) .factory (.create (createConfiguration s)) w =
      (none, w1))
    (hn : env.newRunner ["poetry", "install"] = none)
    (hi : Run env ["poetry", "install"] s.sourceLocation w1 = (none, w2))
    (he : (CreateEndpoints env (confirmed s session) w2).1 = none) :
    Create env s w =
      (.createResponse (CreateEndpoints env (confirmed s session) w2).2.1.settings,
       (CreateEndpoints env (confirmed s session) w2).2) := by
  unfold confirmed createConfiguration at ht
  rcases hce : CreateEndpoints env (confirmed s session) w2 with ⟨e, s3, w3⟩
  rw [hce] at he
  simp only at he
  subst he
  unfold confirmed at hce
  simp [Create, hd, hc, ht, hn, hi, hce]

theorem Templates_trace (env : Collaborators) (s : Service) (set : TemplateSet)
    (input : TemplateInput) (w : World) :
    (Templates env s set input w).2.trace = w.trace ++ [Event.templates set input] := rfl

theorem Run_trace (env : Collaborators) (cmd : List String) (dir : Path) (w : World) :
    (Run env cmd dir w).2.trace = w.trace ++ [Event.run cmd dir] := rfl

/-! ## Claims about `Create` -/

/-- C4: `Create` runs scaffold rendering, then `poetry install` in the source directory,
then endpoint derivation.  Either it returns a `CreateError` having called at most the
scaffold renderer and the installer, or the renderer and the installer both returned
without error, endpoint derivation was started in the world the installer left, every
later call is a call of the generator or of the resolver, and the outcome is a
`CreateResponse` exactly when endpoint derivation returned no error. -/
theorem Create_runs_steps_in_order (env : Collaborators) (s : Service) (w : World) :
    (∃ err, (Create env s w).1 = .createError err ∧
      ((Create env s w).2.2.trace = w.trace ∨
        (Create env s w).2.2.trace = w.trace ++ [scaffoldEvent s] ∨
        (Create env s w).2.2.trace = w.trace ++ [scaffoldEvent s, installEvent s])) ∨
    (∃ (session : Session) (w1 w2 : World),
      s.communication.Done = .ok session ∧
      Templates env (confirmed s session) .factory (.create (createConfiguration s)) w =
        (none, w1) ∧
      env.newRunner ["poetry", "install"] = none ∧
      Run env ["poetry", "install"] s.sourceLocation w1 = (none, w2) ∧
      w2.trace = w.trace ++ [scaffoldEvent s, installEvent s] ∧
      (Create env s w).2 = (CreateEndpoints env (confirmed s session) w2).2 ∧
      (∃ evs, (Create env s w).2.2.trace =
          w.trace ++ [scaffoldEvent s, installEvent s] ++ evs ∧
        ∀ ev ∈ evs, ev = generateEvent s ∨ ev = deriveEvent env s) ∧
      (((CreateEndpoints env (confirmed s session) w2).1 = none ∧
          (Create env s w).1 = .createResponse (Create env s w).2.1.settings) ∨
        ∃ err, (CreateEndpoints env (confirmed s session) w2).1 = some err ∧
          (Create env s w).1 = .failed (.wrapf err "cannot create endpoints"))) := by
  cases hd : s.communication.Done with
  | error err =>
    left
    rw [Create_done_error env s w err hd]
    exact ⟨err, rfl, Or.inl rfl⟩
  | ok session =>
    cases hc : (session.Confirm Watch).2 with
    | some err =>
      left
      rw [Create_confirm_error env s w session err hd hc]
      exact ⟨err, rfl, Or.inl rfl⟩
    | none =>
      have htt := Templates_trace env (confirmed s session) .factory
        (.create (createConfiguration s)) w
      rcases ht : Templates env (confirmed s session) .factory
          (.create (createConfiguration s)) w with ⟨_ | err, w1⟩
      · rw [ht] at htt
        simp only at htt
        cases hn : env.newRunner ["poetry", "install"] with
        | some err =>
          left
          rw [Create_runner_error env s w w1 session err hd hc ht hn]
          exact ⟨err, rfl, Or.inr (Or.inl htt)⟩
        | none =>
          have hit := Run_trace env ["poetry", "install"] s.sourceLocation w1
          rcases hi : Run env ["poetry", "install"] s.sourceLocation w1 with ⟨_ | err, w2⟩
          · rw [hi] at hit
            simp only at hit
            have hw2 : w2.trace = w.trace ++ [scaffoldEvent s, installEvent s] := by
              rw [hit, htt]
              simp [scaffoldEvent, installEvent, createConfiguration]
            right
            refine ⟨session, w1, w2, rfl, ht, rfl, hi, hw2, ?_⟩
            obtain ⟨evs, hevs, hall⟩ := CreateEndpoints_trace env (confirmed s session) w2
            cases he : (CreateEndpoints env (confirmed s session) w2).1 with
            | none =>
              rw [Create_ok env s w w1 w2 session hd hc ht hn hi he]
              refine ⟨rfl, ⟨evs, ?_, hall⟩, Or.inl ⟨rfl, rfl⟩⟩
              simp only [hevs, hw2]
            | some err =>
              rw [Create_endpoints_error env s w w1 w2 session err hd hc ht hn hi he]
              refine ⟨rfl, ⟨evs, ?_, hall⟩, Or.inr ⟨err, rfl, rfl⟩⟩
              simp only [hevs, hw2]
          · rw [hi] at hit
            simp only at hit
            left
            rw [Create_install_error env s w w1 w2 session err hd hc ht hn hi]
            refine ⟨err, rfl, Or.inr (Or.inr ?_)⟩
            simp only [hit, htt]
            simp [scaffoldEvent, installEvent, createConfiguration]
      · rw [ht] at htt
        simp only at htt
        left
        rw [Create_templates_error env s w w1 session err hd hc ht]
        exact ⟨err, rfl, Or.inr (Or.inl htt)⟩

/-- C5: when no answer to the confirmation `with-hot-reload` has been recorded (there is
no session, or the session holds no answer under that name), `Create` returns a
`CreateError` holding a session error and leaves the world as it was: no scaffold file is
rendered, no command is run and the resolver is not called. -/
theorem Create_without_answer (env : Collaborators) (s : Service) (w : World)
    (h : ∀ session, s.communication.done = some session →
      session.answers.lookup Watch = none) :
    ∃ msg, (Create env s w).1 = .createError (.session msg) ∧ (Create env s w).2.2 = w := by
  cases hdone : s.communication.done with
  | none =>
    have hd : s.communication.Done = .error (.session "channel is not done") := by
      simp [Communication.Done, hdone]
    rw [Create_done_error env s w _ hd]
    exact ⟨_, rfl, rfl⟩
  | some session =>
    have hd : s.communication.Done = .ok session := by
      simp [Communication.Done, hdone]
    have hc : (session.Confirm Watch).2 = some (.session Watch) := by
      simp [Session.Confirm, h session hdone]
    rw [Create_confirm_error env s w session _ hd hc]
    exact ⟨_, rfl, rfl⟩

/-- A concrete instance: the confirmation exchange never took place. -/
theorem Create_without_answer_witness :
    ∃ msg, (Create Example.env Example.serviceUnanswered Example.emptyWorld).1 =
        .createError (.session msg) ∧
      (Create Example.env Example.serviceUnanswered Example.emptyWorld).2.2 =
        Example.emptyWorld :=
  Create_without_answer Example.env Example.serviceUnanswered Example.emptyWorld
    (by intro session hs; cases hs)

/-- C3: with the confirmation answered, the scaffold rendered and the install done,
a document that the resolver rejects makes `Create` return the pair `nil, err` with the
error wrapped twice by `Wrapf`; it is not a `CreateError`. -/
theorem Create_endpoint_failure_is_not_CreateError :
    (Create Example.env Example.service Example.malformedDocument).1 =
        .failed (.wrapf (.wrapf (.raised "malformed document") "cannot create openapi api")
          "cannot create endpoints") ∧
      ∀ err, (Create Example.env Example.service Example.malformedDocument).1 ≠
        .createError err := by
  have h : (Create Example.env Example.service Example.malformedDocument).1 =
      .failed (.wrapf (.wrapf (.raised "malformed document") "cannot create openapi api")
        "cannot create endpoints") := by decide
  refine ⟨h, ?_⟩
  intro err
  rw [h]
  simp

/-! ## Facts about `Build` -/

theorem FS.read_remove (fs : FS) (p : Path) : FS.read (FS.remove fs p) p = none := by
  induction fs with
  | nil => rfl
  | cons f rest ih =>
    unfold FS.remove FS.read at ih ⊢
    by_cases h : f.1 = p
    · simpa [List.filter, h] using ih
    · have hne : (p == f.1) = false := by
        simp only [beq_eq_false_iff_ne, ne_eq]
        exact fun hp => h hp.symm
      simp only [List.filter, ne_eq, h, not_false_eq_true, decide_True]
      rw [List.lookup, hne]
      exact ih

theorem DeleteFile_error (env : Collaborators) (s : Service) (w : World) (err : Err)
    (h : env.deleteFile w.fs (descriptor s) = some err) :
    DeleteFile env (descriptor s) w =
      (some err, { w with trace := w.trace ++ [Event.deleteFile (descriptor s)] }) := by
  simp [DeleteFile, h]

theorem DeleteFile_ok (env : Collaborators) (s : Service) (w : World)
    (h : env.deleteFile w.fs (descriptor s) = none) :
    DeleteFile env (descriptor s) w = (none, afterDelete s w) := by
  simp [DeleteFile, h, afterDelete]

theorem Build_delete_error (env : Collaborators) (s : Service) (req : BuildRequest)
    (w : World) (err : Err) (h : env.deleteFile w.fs (descriptor s) = some err) :
    Build env s req w =
      (.failed (.wrapf err "cannot remove dockerfile"),
       { w with trace := w.trace ++ [Event.deleteFile (descriptor s)] }) := by
  have hd := DeleteFile_error env s w err h
  unfold descriptor at hd
  simp [Build, hd, descriptor]

theorem Build_templates_error (env : Collaborators) (s : Service) (req : BuildRequest)
    (w : World) (err : Err) (h : env.deleteFile w.fs (descriptor s) = none)
    (ht : (env.templates s .builder (.docker (dockerTemplating env s w))
      (FS.remove w.fs (descriptor s))).1 = some err) :
    Build env s req w =
      (.failed (.wrapf err "cannot copy and apply template"),
       (Templates env s .builder (.docker (dockerTemplating env s w)) (afterDelete s w)).2) := by
  have hd := DeleteFile_ok env s w h
  unfold descriptor at hd
  have ht2 : (Templates env s .builder (.docker (dockerTemplating env s w))
      (afterDelete s w)).1 = some err := ht
  rcases hT : Templates env s .builder (.docker (dockerTemplating env s w))
      (afterDelete s w) with ⟨e, w2⟩
  rw [hT] at ht2
  simp only at ht2
  subst ht2
  simp [Build, hd, hT]

theorem Build_newBuilder_error (env : Collaborators) (s : Service) (req : BuildRequest)
    (w : World) (err : Err) (h : env.deleteFile w.fs (descriptor s) = none)
    (ht : (env.templates s .builder (.docker (dockerTemplating env s w))
      (FS.remove w.fs (descriptor s))).1 = none)
    (hn : env.newBuilder
      (builderConfiguration s (env.dockerImage s.information req.buildContext)) = some err) :
    Build env s req w =
      (.failed (.wrapf err "cannot create builder"),
       (Templates env s .builder (.docker (dockerTemplating env s w)) (afterDelete s w)).2) := by
  have hd := DeleteFile_ok env s w h
  unfold descriptor at hd
  have ht2 : (Templates env s .builder (.docker (dockerTemplating env s w))
      (afterDelete s w)).1 = none := ht
  rcases hT : Templates env s .builder (.docker (dockerTemplating env s w))
      (afterDelete s w) with ⟨e, w2⟩
  rw [hT] at ht2
  simp only at ht2
  subst ht2
  simp [Build, hd, hT, hn]

theorem Build_reaches_image_build (env : Collaborators) (s : Service) (req : BuildRequest)
    (w : World) (h : env.deleteFile w.fs (descriptor s) = none)
    (ht : (env.templates s .builder (.docker (dockerTemplating env s w))
      (FS.remove w.fs (descriptor s))).1 = none)
    (hn : env.newBuilder
      (builderConfiguration s (env.dockerImage s.information req.buildContext)) = none) :
    Build env s req w =
      ((match env.dockerBuild
            (builderConfiguration s (env.dockerImage s.information req.buildContext))
            (env.templates s .builder (.docker (dockerTemplating env s w))
              (FS.remove w.fs (descriptor s))).2 with
        | some err => BuildResult.failed (.wrapf err "cannot build image")
        | none => BuildResult.buildResponse),
       { fs := (env.templates s .builder (.docker (dockerTemplating env s w))
           (FS.remove w.fs (descriptor s))).2,
         trace := w.trace ++ buildEvents env s req w }) := by
  have hd := DeleteFile_ok env s w h
  unfold descriptor at hd ht
  cases hb : env.dockerBuild
      (builderConfiguration s (env.dockerImage s.information req.buildContext))
      (env.templates s .builder (.docker (dockerTemplating env s w))
        (FS.remove w.fs (descriptor s))).2 with
  | some err =>
    unfold descriptor at hb
    simp [Build, hd, Templates, afterDelete, descriptor, ht, hn, DockerBuild, hb, buildEvents]
  | none =>
    unfold descriptor at hb
    simp [Build, hd, Templates, afterDelete, descriptor, ht, hn, DockerBuild, hb, buildEvents]

theorem Build_ok (env : Collaborators) (s : Service) (req : BuildRequest) (w : World)
    (h : (Build env s req w).1 = .buildResponse) :
    env.deleteFile w.fs (descriptor s) = none ∧
      (env.templates s .builder (.docker (dockerTemplating env s w))
        (FS.remove w.fs (descriptor s))).1 = none ∧
      (Build env s req w).2 =
        { fs := (env.templates s .builder (.docker (dockerTemplating env s w))
            (FS.remove w.fs (descriptor s))).2,
          trace := w.trace ++ buildEvents env s req w } := by
  cases hd : env.deleteFile w.fs (descriptor s) with
  | some err =>
    rw [Build_delete_error env s req w err hd] at h
    simp at h
  | none =>
    cases ht : (env.templates s .builder (.docker (dockerTemplating env s w))
        (FS.remove w.fs (descriptor s))).1 with
    | some err =>
      rw [Build_templates_error env s req w err hd ht] at h
      simp at h
    | none =>
      cases hn : env.newBuilder
          (builderConfiguration s (env.dockerImage s.information req.buildContext)) with
      | some err =>
        rw [Build_newBuilder_error env s req w err hd ht hn] at h
        simp at h
      | none =>
        rw [Build_reaches_image_build env s req w hd ht hn]
        exact ⟨rfl, rfl, rfl⟩

/-! ## Claims about `Build` and `Deploy` -/

/-- C6: `Build` deletes `builder/Dockerfile`, then renders the builder templates on files
that hold no descriptor, then builds the image.  If the deletion fails, `Build` returns an
error having made no other call; if the deletion succeeds and the rendering fails, `Build`
returns an error having made these two calls only; the calls made are always the deletion,
or the deletion and the rendering, or all three in this order, the image build being
reached only after a rendering that returned no error; and a `BuildResponse` is returned
only after all three. -/
theorem Build_deletes_renders_builds (env : Collaborators) (s : Service)
    (req : BuildRequest) (w : World) :
    (∀ err, env.deleteFile w.fs (descriptor s) = some err →
      Build env s req w =
        (.failed (.wrapf err "cannot remove dockerfile"),
         { w with trace := w.trace ++ [Event.deleteFile (descriptor s)] })) ∧
    (env.deleteFile w.fs (descriptor s) = none →
      ∀ err, (env.templates s .builder (.docker (dockerTemplating env s w))
          (FS.remove w.fs (descriptor s))).1 = some err →
        (Build env s req w).1 = .failed (.wrapf err "cannot copy and apply template") ∧
        (Build env s req w).2.trace = w.trace ++ (buildEvents env s req w).take 2) ∧
    ((Build env s req w).2.trace = w.trace ++ (buildEvents env s req w).take 1 ∨
      (env.deleteFile w.fs (descriptor s) = none ∧
        (Build env s req w).2.trace = w.trace ++ (buildEvents env s req w).take 2) ∨
      (env.deleteFile w.fs (descriptor s) = none ∧
        (env.templates s .builder (.docker (dockerTemplating env s w))
          (FS.remove w.fs (descriptor s))).1 = none ∧
        (Build env s req w).2.trace = w.trace ++ buildEvents env s req w)) ∧
    ((Build env s req w).1 = .buildResponse →
      (Build env s req w).2.trace = w.trace ++ buildEvents env s req w) ∧
    FS.read (FS.remove w.fs (descriptor s)) (descriptor s) = none := by
  refine ⟨?_, ?_, ?_, ?_, FS.read_remove _ _⟩
  · intro err hd
    exact Build_delete_error env s req w err hd
  · intro hd err ht
    rw [Build_templates_error env s req w err hd ht]
    exact ⟨rfl, by simp [Templates, afterDelete, buildEvents]⟩
  · cases hd : env.deleteFile w.fs (descriptor s) with
    | some err =>
      left
      rw [Build_delete_error env s req w err hd]
      simp [buildEvents]
    | none =>
      right
      cases ht : (env.templates s .builder (.docker (dockerTemplating env s w))
          (FS.remove w.fs (descriptor s))).1 with
      | some err =>
        left
        rw [Build_templates_error env s req w err hd ht]
        exact ⟨rfl, by simp [Templates, afterDelete, buildEvents]⟩
      | none =>
        cases hn : env.newBuilder
            (builderConfiguration s (env.dockerImage s.information req.buildContext)) with
        | some err =>
          left
          rw [Build_newBuilder_error env s req w err hd ht hn]
          exact ⟨rfl, by simp [Templates, afterDelete, buildEvents]⟩
        | none =>
          right
          rw [Build_reaches_image_build env s req w hd ht hn]
          exact ⟨rfl, rfl, rfl⟩
  · intro h
    rw [(Build_ok env s req w h).2.2]

/-- A concrete instance: a deletion that fails, on a directory with a stale descriptor. -/
theorem Build_deletes_renders_builds_witness :
    Build Example.envDeleteFails Example.service Example.buildRequest
        Example.staleDescriptor =
      (.failed (.wrapf (.raised "permission denied") "cannot remove dockerfile"),
       { Example.staleDescriptor with
         trace := Example.staleDescriptor.trace ++
           [Event.deleteFile (descriptor Example.service)] }) :=
  (Build_deletes_renders_builds Example.envDeleteFails Example.service Example.buildRequest
    Example.staleDescriptor).1 (.raised "permission denied") rfl

theorem Example.env_descriptorFromInput : DescriptorFromInput Example.env Example.service := by
  intro input fs fs2 h1 h2 _ _
  cases input with
  | docker d =>
    simp only [Example.env, Example.templates, h1, h2]
    simp [FS.read, List.lookup]
  | create c =>
    simp only [Example.env, Example.templates, h1, h2]

/-- C7: regenerating the descriptor is idempotent.  With a template engine whose
descriptor is determined by the template input when it starts without one, if `Build` is
run twice in a row on the same service and build request, the component list is the same
at both runs and both runs return a `BuildResponse`, then both runs make the same three
calls (same template input, same image reference) and the descriptor holds the same
content after the second run as after the first, whatever the files were at the start. -/
theorem Build_twice_same_descriptor (env : Collaborators) (s : Service)
    (req : BuildRequest) (w : World)
    (hdet : DescriptorFromInput env s)
    (hall : env.requirementsAll (Build env s req w).2.fs = env.requirementsAll w.fs)
    (h1 : (Build env s req w).1 = .buildResponse)
    (h2 : (Build env s req (Build env s req w).2).1 = .buildResponse) :
    (Build env s req w).2.trace = w.trace ++ buildEvents env s req w ∧
      (Build env s req (Build env s req w).2).2.trace =
        (Build env s req w).2.trace ++ buildEvents env s req w ∧
      FS.read (Build env s req (Build env s req w).2).2.fs (descriptor s) =
        FS.read (Build env s req w).2.fs (descriptor s) := by
  obtain ⟨_, ht1, hw1⟩ := Build_ok env s req w h1
  obtain ⟨_, ht2, hw2⟩ := Build_ok env s req _ h2
  have hin : dockerTemplating env s (Build env s req w).2 = dockerTemplating env s w := by
    simp only [dockerTemplating, hall]
  have hev : buildEvents env s req (Build env s req w).2 = buildEvents env s req w := by
    simp only [buildEvents, hin]
  rw [hin] at ht2 hw2
  rw [hev] at hw2
  refine ⟨by rw [hw1], by rw [hw2], ?_⟩
  rw [hw2]
  simp only
  rw [hw1]
  simp only
  have := hdet (.docker (dockerTemplating env s w))
    (FS.remove (Build env s req w).2.fs (descriptor s)) (FS.remove w.fs (descriptor s))
    (FS.read_remove _ _) (FS.read_remove _ _) ht2 ht1
  rw [hw1] at this
  exact this

/-- A concrete instance: two builds in a row starting from a stale descriptor. -/
theorem Build_twice_same_descriptor_witness :
    (Build Example.env Example.service Example.buildRequest Example.staleDescriptor).2.trace =
        Example.staleDescriptor.trace ++
          buildEvents Example.env Example.service Example.buildRequest
            Example.staleDescriptor ∧
      (Build Example.env Example.service Example.buildRequest
        (Build Example.env Example.service Example.buildRequest
          Example.staleDescriptor).2).2.trace =
        (Build Example.env Example.service Example.buildRequest
          Example.staleDescriptor).2.trace ++
          buildEvents Example.env Example.service Example.buildRequest
            Example.staleDescriptor ∧
      FS.read (Build Example.env Example.service Example.buildRequest
        (Build Example.env Example.service Example.buildRequest
          Example.staleDescriptor).2).2.fs (descriptor Example.service) =
        FS.read (Build Example.env Example.service Example.buildRequest
          Example.staleDescriptor).2.fs (descriptor Example.service) :=
  Build_twice_same_descriptor Example.env Example.service Example.buildRequest
    Example.staleDescriptor Example.env_descriptorFromInput rfl (by decide) (by decide)

/-- C10: when the configuration map renders, `Deploy` calls the deployment applier once,
with the image reference derived from the service identity and the build context of the
request, the service information, the rendered configuration map and a replica count of 1,
and answers with a `DeployError` when the applier fails and a `DeployResponse` otherwise;
when the configuration map does not render, `Deploy` answers with a `DeployError` and
calls nothing.  A `Build` of the same service for the same build context that runs to the
end has handed that same image reference to the image builder. -/
theorem Deploy_hands_over_image_config_replicas (env : Collaborators) (s : Service)
    (req : DeploymentRequest) (w : World) :
    (∀ cfMap, env.envsAsConfigMapData s.environmentVariables = .ok cfMap →
      (Deploy env s req w).2.trace =
        w.trace ++ [Event.deploy req
          { image := env.dockerImage s.information req.buildContext,
            information := s.information,
            deploymentConfiguration := { replicas := 1 },
            configMap := cfMap }] ∧
      (∀ err, (env.builderDeploy req (deploymentParams env s req cfMap) w.fs).1 = some err →
        (Deploy env s req w).1 = .deployError err) ∧
      ((env.builderDeploy req (deploymentParams env s req cfMap) w.fs).1 = none →
        (Deploy env s req w).1 = .deployResponse)) ∧
    (∀ err, env.envsAsConfigMapData s.environmentVariables = .error err →
      Deploy env s req w = (.deployError err, w)) ∧
    (∀ (breq : BuildRequest) (w0 : World), breq.buildContext = req.buildContext →
      (Build env s breq w0).1 = .buildResponse →
      (Build env s breq w0).2.trace.getLast? =
        some (Event.dockerBuild
          { root := s.location, dockerfile := "builder/Dockerfile",
            destination := env.dockerImage s.information req.buildContext })) := by
  refine ⟨?_, ?_, ?_⟩
  · intro cfMap hc
    refine ⟨?_, ?_, ?_⟩
    · cases hb : (env.builderDeploy req (deploymentParams env s req cfMap) w.fs).1 <;>
        simp [Deploy, hc, BuilderDeploy, hb] <;> rfl
    · intro err hb
      simp [Deploy, hc, BuilderDeploy, hb]
    · intro hb
      simp [Deploy, hc, BuilderDeploy, hb]
  · intro err hc
    simp [Deploy, hc]
  · intro breq w0 hbc h
    rw [(Build_ok env s breq w0 h).2.2]
    simp [buildEvents, builderConfiguration, hbc]

/-- A concrete instance: a deployment of `orders/api` whose configuration map renders. -/
theorem Deploy_hands_over_image_config_replicas_witness :
    (Deploy Example.env Example.service Example.deploymentRequest Example.emptyWorld).2.trace =
      Example.emptyWorld.trace ++ [Event.deploy Example.deploymentRequest
        { image := Example.env.dockerImage Example.service.information
            Example.deploymentRequest.buildContext,
          information := Example.service.information,
          deploymentConfiguration := { replicas := 1 },
          configMap := [("DB=postgres", "DB=postgres")] }] :=
  ((Deploy_hands_over_image_config_replicas Example.env Example.service
    Example.deploymentRequest Example.emptyWorld).1
    [("DB=postgres", "DB=postgres")] rfl).1

end PoetryFastapi
